import Mathlib

/-!
# Verification of the arXiv research-agent core pipeline

Shallow embedding of the fetch → filter → cache → analyze → digest pipeline
of the repository (src/arxiv_fetcher.py, src/cache_manager.py,
src/claude_analyzer.py, src/research_agent.py, bootstrap.py).

Modelling conventions:
* Python `datetime` values are modelled as integer timestamps in seconds
  (UTC); `timedelta(hours=h)` is `h * 3600`, `timedelta.days` is floor
  division by 86400 (Python's `timedelta.days` floors).
* Python `float` scores are modelled as exact rationals `ℚ`; the decimal
  literals of the source (0.2, 0.3, ...) are taken at their exact values.
* The MD5 digest in `CacheManager._calculate_paper_hash` is modelled as the
  identity on the hashed content string `title|abstract|updated`; hash
  equality/inequality in the model corresponds to content equality.
* The external reasoning service and the network are modelled as oracle
  parameters (functions supplied to the embedded operations).
-/

namespace ArxivAgent

/-- `ArxivPaper` dataclass from src/arxiv_fetcher.py. Timestamps are seconds. -/
structure ArxivPaper where
  id : String
  title : String
  authors : List String
  abstract : String
  categories : List String
  published : Int
  updated : Int
  pdf_url : String
  arxiv_url : String
  primary_category : String
  deriving DecidableEq, Repr

/-- `PaperAnalysis` dataclass from src/claude_analyzer.py. -/
structure PaperAnalysis where
  paper_id : String
  relevance_score : ℚ
  significance_score : ℚ
  novelty_score : ℚ
  summary : String
  key_insights : List String
  technical_details : String
  potential_impact : String
  implementation_difficulty : String
  business_relevance : String
  connections_to_other_work : List String
  recommended_for : List String
  tags : List String
  deriving DecidableEq, Repr

/-- Python `str.lower()` (ASCII-relevant part, via `Char.toLower` on the
character list). -/
def lowerStr (s : String) : String :=
  String.mk (s.data.map Char.toLower)

/-- Character-list prefix test (`needle` is a prefix of the second list). -/
def charPrefix : List Char → List Char → Bool
  | [], _ => true
  | _ :: _, [] => false
  | a :: as, b :: bs => a = b && charPrefix as bs

/-- `needle` occurs as a contiguous run inside the haystack. -/
def charInfix (needle : List Char) : List Char → Bool
  | [] => needle.isEmpty
  | c :: rest => charPrefix needle (c :: rest) || charInfix needle rest

/-- Python `sub in s` substring membership test. -/
def containsSubstr (s sub : String) : Bool :=
  charInfix sub.data s.data

/-- `high_value_keywords` list from `ArxivFetcher._calculate_relevance_score`. -/
def high_value_keywords : List String :=
  ["breakthrough", "novel", "state-of-the-art", "sota",
   "significant", "improvement", "outperforms", "beats",
   "first", "new", "innovative", "groundbreaking"]

/-- The lowercased `title + " " + abstract` text that the fetcher scans. -/
def paperText (p : ArxivPaper) : String :=
  lowerStr (p.title ++ " " ++ p.abstract)

/-- The high-value keywords present in a paper's text (each counted once). -/
def matchedKeywords (p : ArxivPaper) : List String :=
  high_value_keywords.filter (fun kw => containsSubstr (paperText p) kw)

/-- `days_old = (datetime.now() - paper.published).days` with `now` explicit. -/
def daysOld (now : Int) (p : ArxivPaper) : Int :=
  Int.fdiv (now - p.published) 86400

/-- `ArxivFetcher._calculate_relevance_score`: +0.2 per matched high-value
keyword, a recency bonus (+0.3 ≤1 day, +0.2 ≤3 days, +0.1 ≤7 days),
+0.2 for a popular primary category, clamped by `min(score, 1.0)`. -/
def calculate_relevance_score (now : Int) (p : ArxivPaper) : ℚ :=
  let kwScore : ℚ := (matchedKeywords p).length * (0.2 : ℚ)
  let d := daysOld now p
  let recency : ℚ :=
    if d ≤ 1 then 0.3 else if d ≤ 3 then 0.2 else if d ≤ 7 then 0.1 else 0
  let catBonus : ℚ :=
    if p.primary_category ∈ (["cs.AI", "cs.LG"] : List String) then 0.2 else 0
  min (kwScore + recency + catBonus) 1

/-- Default exclusion keywords of `ArxivFetcher.filter_papers`
(`exclude_keywords or ['survey', 'review', 'tutorial']`). -/
def default_exclude_keywords : List String :=
  ["survey", "review", "tutorial"]

/-- Python truthiness of `exclude_keywords or default`: `None` and the empty
list both fall back to the default list. -/
def effectiveExcludeKeywords (ek : Option (List String)) : List String :=
  match ek with
  | none => default_exclude_keywords
  | some [] => default_exclude_keywords
  | some ks => ks

/-- Whether a paper's text contains one of the (lowercased) exclusion
keywords: the drop test of `ArxivFetcher.filter_papers`. -/
def excludedBy (ek : List String) (p : ArxivPaper) : Bool :=
  ek.any (fun kw => containsSubstr (paperText p) (lowerStr kw))

/-- `ArxivFetcher.filter_papers`: drop papers matching an exclusion keyword,
then drop papers whose heuristic relevance score is below threshold. -/
def filter_papers (now : Int) (papers : List ArxivPaper)
    (exclude_keywords : Option (List String)) (min_relevance_score : ℚ) :
    List ArxivPaper :=
  let ek := effectiveExcludeKeywords exclude_keywords
  papers.filter (fun p =>
    !(excludedBy ek p) && decide (min_relevance_score ≤ calculate_relevance_score now p))

/-! ## Paper Analyzer (src/claude_analyzer.py) -/

/-- The score/field values extracted from the JSON object embedded in the
reasoning-service response: each field is present (`some`) or absent
(`none`), mirroring `analysis_data.get(key, default)`. Score fields carry
the numeric value the payload supplied, unconstrained. -/
structure AnalysisData where
  relevance_score : Option ℚ := none
  significance_score : Option ℚ := none
  novelty_score : Option ℚ := none
  summary : Option String := none
  key_insights : Option (List String) := none
  technical_details : Option String := none
  potential_impact : Option String := none
  implementation_difficulty : Option String := none
  business_relevance : Option String := none
  connections_to_other_work : Option (List String) := none
  recommended_for : Option (List String) := none
  tags : Option (List String) := none
  deriving DecidableEq, Repr

/-- Construction of the `PaperAnalysis` object in
`ClaudeAnalyzer.analyze_paper` (lines 181-195): every field is read with
`analysis_data.get(key, default)` — numeric scores default to 0.5, strings
to "", lists to []. No transformation (in particular no clamping) is
applied to the payload values. -/
def mkPaperAnalysis (paper_id : String) (d : AnalysisData) : PaperAnalysis :=
  { paper_id := paper_id
    relevance_score := d.relevance_score.getD 0.5
    significance_score := d.significance_score.getD 0.5
    novelty_score := d.novelty_score.getD 0.5
    summary := d.summary.getD ""
    key_insights := d.key_insights.getD []
    technical_details := d.technical_details.getD ""
    potential_impact := d.potential_impact.getD ""
    implementation_difficulty := d.implementation_difficulty.getD ""
    business_relevance := d.business_relevance.getD ""
    connections_to_other_work := d.connections_to_other_work.getD []
    recommended_for := d.recommended_for.getD []
    tags := d.tags.getD [] }

/-- Outcome of one `analyze_paper` task as observed by
`analyze_paper_batch` after `asyncio.gather(..., return_exceptions=True)`:
a `PaperAnalysis`, a `None` return (absent), or a raised exception. -/
inductive AnalysisOutcome where
  | success (a : PaperAnalysis)
  | absent
  | failure (msg : String)
  deriving DecidableEq, Repr

/-- The successful payload of an outcome, if any. -/
def AnalysisOutcome.toSuccess : AnalysisOutcome → Option PaperAnalysis
  | .success a => some a
  | .absent => none
  | .failure _ => none

/-- `ClaudeAnalyzer.analyze_paper_batch`: every paper gets its own task
(outcome given by the oracle `f`); `gather` with `return_exceptions=True`
collects all outcomes, then only `PaperAnalysis` results are kept —
exceptions and `None` results are dropped, in input order. -/
def analyze_paper_batch (f : ArxivPaper → AnalysisOutcome)
    (papers : List ArxivPaper) : List PaperAnalysis :=
  (papers.map f).filterMap AnalysisOutcome.toSuccess

/-! ## Analysis Cache (src/cache_manager.py)

The three durable stores (`metadata/analyzed_papers.json`,
`metadata/paper_hashes.json`, and the pickle blob directories) are
modelled as finitely-supported maps from paper id. -/

/-- One entry of `analyzed_papers.json` as written by
`CacheManager.cache_analysis`. -/
structure CacheMeta where
  analyzed_at : Int
  title : String
  significance_score : ℚ
  categories : List String
  deriving DecidableEq, Repr

/-- The mutable state of a `CacheManager`. -/
structure CacheState where
  analyzed_papers : String → Option CacheMeta
  paper_hashes : String → Option String
  paper_files : String → Option ArxivPaper
  analysis_files : String → Option PaperAnalysis

/-- The empty cache. -/
def CacheState.empty : CacheState :=
  ⟨fun _ => none, fun _ => none, fun _ => none, fun _ => none⟩

/-- `CacheManager._calculate_paper_hash`: MD5 of
`f"{title}|{abstract}|{updated.isoformat()}"`; the digest step is modelled
as the identity on the content string. -/
def calculate_paper_hash (p : ArxivPaper) : String :=
  p.title ++ "|" ++ p.abstract ++ "|" ++ toString p.updated

/-- Pointwise update of a string-keyed map. -/
def updMap {α : Type} (m : String → Option α) (k : String) (v : Option α) :
    String → Option α :=
  fun x => if x = k then v else m x

/-- `CacheManager._remove_from_cache` (with `_remove_paper_files`): drops
the metadata entry, the hash record, and both blobs for the id. -/
def remove_from_cache (c : CacheState) (paper_id : String) : CacheState :=
  { analyzed_papers := updMap c.analyzed_papers paper_id none
    paper_hashes := updMap c.paper_hashes paper_id none
    paper_files := updMap c.paper_files paper_id none
    analysis_files := updMap c.analysis_files paper_id none }

/-- `CacheManager.is_paper_analyzed` at time `now` with TTL `ttl_hours`:
metadata entry must exist, the stored hash must equal the recomputed
content hash (else purge + false), and the entry must not be expired
(`analyzed_at <= now - ttl_hours` hours purges and returns false).
Returns the answer together with the possibly-mutated cache state. -/
def is_paper_analyzed (c : CacheState) (now : Int) (ttl_hours : Int)
    (p : ArxivPaper) : Bool × CacheState :=
  match c.analyzed_papers p.id with
  | none => (false, c)
  | some meta =>
    let current_hash := calculate_paper_hash p
    if c.paper_hashes p.id ≠ some current_hash then
      (false, remove_from_cache c p.id)
    else
      let cutoff := now - ttl_hours * 3600
      if meta.analyzed_at ≤ cutoff then
        (false, remove_from_cache c p.id)
      else
        (true, c)

/-- `CacheManager.get_cached_analysis`: no metadata entry means absent;
metadata present but blob missing self-heals (purge + absent). -/
def get_cached_analysis (c : CacheState) (paper_id : String) :
    Option PaperAnalysis × CacheState :=
  match c.analyzed_papers paper_id with
  | none => (none, c)
  | some _ =>
    match c.analysis_files paper_id with
    | some a => (some a, c)
    | none => (none, remove_from_cache c paper_id)

/-- `CacheManager.cache_analysis` at time `now`: stores both blobs, writes
the metadata entry (timestamp `now`, title truncated to 100 chars, the
analysis's significance score, first 3 categories) and the content hash. -/
def cache_analysis (c : CacheState) (now : Int) (p : ArxivPaper)
    (a : PaperAnalysis) : CacheState :=
  { paper_files := updMap c.paper_files p.id (some p)
    analysis_files := updMap c.analysis_files p.id (some a)
    analyzed_papers := updMap c.analyzed_papers p.id
      (some { analyzed_at := now
              title := String.mk (p.title.data.take 100)
              significance_score := a.significance_score
              categories := p.categories.take 3 })
    paper_hashes := updMap c.paper_hashes p.id
      (some (calculate_paper_hash p)) }

/-- `CacheManager.filter_new_papers`: keeps, in order, exactly the papers
failing `is_paper_analyzed`, threading the cache state through the
accesses (each check may purge stale entries). -/
def filter_new_papers (c : CacheState) (now : Int) (ttl_hours : Int) :
    List ArxivPaper → List ArxivPaper × CacheState
  | [] => ([], c)
  | p :: rest =>
    let r := is_paper_analyzed c now ttl_hours p
    let tail := filter_new_papers r.2 now ttl_hours rest
    if r.1 then tail else (p :: tail.1, tail.2)

/-! ## Orchestrator (src/research_agent.py) -/

/-- The research-section fields of `ConfigManager` consumed by one cycle. -/
structure ResearchConfig where
  interests : List String
  arxiv_categories : List String
  exclude_keywords : List String
  max_papers_per_day : Nat
  days_back : Nat
  min_relevance_score : ℚ
  min_significance_score : ℚ
  deriving DecidableEq, Repr

/-- Observable trace of one `ResearchAgent.fetch_and_analyze_papers` call:
the post-filter candidate list, the papers actually handed to
`analyze_paper_batch` (the analysis calls issued), the batch results, and
the significance-filtered analyses the method returns. -/
structure CycleTrace where
  filtered : List ArxivPaper
  submitted : List ArxivPaper
  analyses : List PaperAnalysis
  significant : List PaperAnalysis
  deriving DecidableEq, Repr

/-- `ResearchAgent.fetch_and_analyze_papers` (src/research_agent.py lines
117-161), with the arXiv response supplied as `fetched` and the reasoning
service as the oracle `f`. The fetched list is filtered by
`ArxivFetcher.filter_papers`; on an empty filtered list the method returns
`([], [])` early; otherwise `filtered_papers[:10]` is submitted to
`analyze_paper_batch` and the results are filtered by
`significance_score >= min_significance_score`. No cache object is
consulted or updated anywhere in this method. -/
def fetch_and_analyze_papers (now : Int) (cfg : ResearchConfig)
    (f : ArxivPaper → AnalysisOutcome) (fetched : List ArxivPaper) :
    CycleTrace :=
  let filtered := filter_papers now fetched (some cfg.exclude_keywords)
    cfg.min_relevance_score
  if filtered.isEmpty then
    { filtered := [], submitted := [], analyses := [], significant := [] }
  else
    let submitted := filtered.take 10
    let analyses := analyze_paper_batch f submitted
    let significant := analyses.filter
      (fun a => decide (cfg.min_significance_score ≤ a.significance_score))
    { filtered := filtered, submitted := submitted,
      analyses := analyses, significant := significant }

/-- Structured outcome of one cycle, plus whether the publish layer
(`generate_and_distribute_digest`'s file generation / notifications) was
invoked. -/
structure CycleResult where
  status : String
  publishCalled : Bool
  deriving DecidableEq, Repr

/-- `ResearchAgent.generate_and_distribute_digest`: skips (no publishing)
when papers or analyses are empty, otherwise generates digests and returns
status "success". -/
def generate_and_distribute_digest (papers : List ArxivPaper)
    (analyses : List PaperAnalysis) : CycleResult :=
  if papers.isEmpty || analyses.isEmpty then
    { status := "skipped", publishCalled := false }
  else
    { status := "success", publishCalled := true }

/-- `ResearchAgent.run_daily_digest`: the body's `fetch_and_analyze_papers`
call either raises (`.error e`, caught by the `except` clause and turned
into a status-"error" result — never re-raised) or returns the
`(papers, analyses)` pair; empty analyses short-circuit to "no_content"
without touching the publish layer. -/
def run_daily_digest
    (cycle : Except String (List ArxivPaper × List PaperAnalysis)) :
    CycleResult :=
  match cycle with
  | .error _ => { status := "error", publishCalled := false }
  | .ok (papers, analyses) =>
    if analyses.isEmpty then
      { status := "no_content", publishCalled := false }
    else
      generate_and_distribute_digest papers analyses

/-! ## Resilient wrapper (bootstrap.py, `ResilientAgent`) -/

/-- One pass of `ResilientAgent.run_agent_with_recovery`'s while loop,
recursing on explicit fuel (the loop performs at most `max_retries`
iterations since `retry_count` strictly increases on failure and the
final failure raises). `attempts k` tells whether the k-th agent run
(0-based) returns normally; the result is the list of back-off sleeps
performed, in order, and whether the loop completed (`true`) or raised
after exhausting retries (`false`). The delay doubles after each sleep,
capped at 300 seconds (`min(self.retry_delay * 2, 300)`). -/
def recovery_loop (attempts : Nat → Bool) (max_retries : Nat) :
    Nat → Nat → Nat → List Nat × Bool
  | 0, _, _ => ([], false)
  | fuel + 1, retry_count, delay =>
    if retry_count < max_retries then
      if attempts retry_count then
        ([], true)
      else if retry_count + 1 < max_retries then
        let r := recovery_loop attempts max_retries
          fuel (retry_count + 1) (min (delay * 2) 300)
        (delay :: r.1, r.2)
      else
        ([], false)
    else
      ([], true)

/-- `ResilientAgent.run_agent_with_recovery` with the constructor values
`max_retries = 5`, `retry_delay = 30`: starts at `retry_count = 0`. -/
def run_agent_with_recovery (attempts : Nat → Bool)
    (max_retries : Nat := 5) (retry_delay : Nat := 30) : List Nat × Bool :=
  recovery_loop attempts max_retries (max_retries + 1) 0 retry_delay

/-! ## Spec-side definitions (written from the spec's wording, §4.1) -/

/-- Spec §4.1: "+0.2 per matched high-value keyword … each counted once per
keyword present". -/
def specKeywordBonus (p : ArxivPaper) : ℚ :=
  (matchedKeywords p).length * (0.2 : ℚ)

/-- Spec §4.1: "recency bonus +0.3 if ≤1 day old, +0.2 if ≤3 days, +0.1 if
≤7 days". -/
def specRecencyBonus (now : Int) (p : ArxivPaper) : ℚ :=
  if daysOld now p ≤ 1 then 0.3
  else if daysOld now p ≤ 3 then 0.2
  else if daysOld now p ≤ 7 then 0.1
  else 0

/-- Spec §4.1: "+0.2 if primary category is in a small popular set". -/
def specCategoryBonus (p : ArxivPaper) : ℚ :=
  if p.primary_category ∈ (["cs.AI", "cs.LG"] : List String) then 0.2 else 0

/-! ## Concrete sample inputs used by witnesses and counterexamples -/

/-- A sample paper: published at time 999000, title matching exactly the
high-value keywords "novel" and "state-of-the-art", popular primary
category. -/
def samplePaper : ArxivPaper :=
  { id := "2501.00001"
    title := "A novel state-of-the-art approach"
    authors := ["A. Author"]
    abstract := "We evaluate it."
    categories := ["cs.AI"]
    published := 999000
    updated := 999000
    pdf_url := "https://arxiv.org/pdf/2501.00001.pdf"
    arxiv_url := "https://arxiv.org/abs/2501.00001"
    primary_category := "cs.AI" }

/-- The sample paper with its title changed (content hash changes). -/
def samplePaperChanged : ArxivPaper :=
  { samplePaper with title := "A changed headline" }

/-- A sample paper whose title contains the default exclusion keyword
"survey". -/
def surveyPaper : ArxivPaper :=
  { samplePaper with id := "2501.00002", title := "A survey of methods" }

/-- A sample analysis with significance score 0.8 (other fields default). -/
def sampleAnalysis : PaperAnalysis :=
  mkPaperAnalysis "2501.00001" { significance_score := some 0.8 }

/-- A research configuration with the defaults of `ConfigManager`. -/
def sampleConfig : ResearchConfig :=
  { interests := []
    arxiv_categories := ["cs.AI"]
    exclude_keywords := []
    max_papers_per_day := 50
    days_back := 1
    min_relevance_score := 0.3
    min_significance_score := 0.4 }

/-- A reasoning-service oracle that answers every paper with
`sampleAnalysis`. -/
def sampleOracle : ArxivPaper → AnalysisOutcome :=
  fun _ => .success sampleAnalysis

/-! ## Theorems -/

/-- Claim C7: the heuristic relevance score is
`min (0.2·#matched-keywords + recency-bonus + category-bonus) 1` exactly as
the spec describes it, and in the concrete scenario — keywords "novel" and
"state-of-the-art" matched and nothing else, paper at most 1 day old,
primary category `cs.AI` — the score is 0.2+0.2+0.3+0.2 = 0.9. -/
theorem c7_heuristic_relevance_score (now : Int) (p : ArxivPaper) :
    calculate_relevance_score now p =
      min (specKeywordBonus p + specRecencyBonus now p + specCategoryBonus p) 1
    ∧ calculate_relevance_score now p ≤ 1
    ∧ (matchedKeywords p = ["novel", "state-of-the-art"] →
        daysOld now p ≤ 1 →
        p.primary_category = "cs.AI" →
        calculate_relevance_score now p = 0.9) := by
  refine ⟨rfl, min_le_right _ _, fun hkw hd hcat => ?_⟩
  unfold calculate_relevance_score
  rw [hkw, hcat]
  simp only [if_pos hd, List.length_cons, List.length_nil]
  norm_num

/-- Claim C7 witness: the sample paper (0 days old, primary `cs.AI`,
matching exactly "novel" and "state-of-the-art") scores 0.9. -/
theorem c7_heuristic_relevance_score_witness :
    calculate_relevance_score 999500 samplePaper = 0.9 :=
  (c7_heuristic_relevance_score 999500 samplePaper).2.2
    (by decide) (by decide) rfl

/-- Claim C9: in every cycle, the papers submitted to batch analysis are
exactly the first 10 of the filtered candidate list (in input order), so at
most 10 analysis calls are issued regardless of the configured fetch cap. -/
theorem c9_submits_first_ten (now : Int) (cfg : ResearchConfig)
    (f : ArxivPaper → AnalysisOutcome) (fetched : List ArxivPaper) :
    (fetch_and_analyze_papers now cfg f fetched).submitted =
      (fetch_and_analyze_papers now cfg f fetched).filtered.take 10
    ∧ (fetch_and_analyze_papers now cfg f fetched).submitted.length ≤ 10 := by
  by_cases h : (filter_papers now fetched (some cfg.exclude_keywords)
      cfg.min_relevance_score).isEmpty
  · simp [fetch_and_analyze_papers, h]
  · refine ⟨?_, ?_⟩
    · simp [fetch_and_analyze_papers, h]
    · simp only [fetch_and_analyze_papers, h, Bool.false_eq_true,
        if_false, List.length_take]
      omega

/-- Claim C10: calling `filter_papers` with no exclusion list (`None` or
the empty list) applies the default exclusions "survey", "review",
"tutorial"; any paper whose title+abstract contains one of them
(case-insensitively) is dropped. -/
theorem c10_default_exclusions (now : Int) (papers : List ArxivPaper)
    (minRel : ℚ) :
    filter_papers now papers none minRel =
      filter_papers now papers (some default_exclude_keywords) minRel
    ∧ filter_papers now papers (some []) minRel =
      filter_papers now papers (some default_exclude_keywords) minRel
    ∧ ∀ p, excludedBy default_exclude_keywords p = true →
        p ∉ filter_papers now papers none minRel := by
  refine ⟨rfl, rfl, fun p hex hmem => ?_⟩
  have h := (List.mem_filter.mp hmem).2
  simp only [effectiveExcludeKeywords, Bool.and_eq_true, Bool.not_eq_true'] at h
  exact absurd h.1 (by simp [hex])

/-- Claim C10 witness: with no exclusion list supplied, the paper titled
"A survey of methods" is dropped. -/
theorem c10_default_exclusions_witness :
    surveyPaper ∉ filter_papers 999500 [surveyPaper] none 0 :=
  (c10_default_exclusions 999500 [surveyPaper] 0).2.2 surveyPaper (by decide)

/-- Claim C4: batch analysis returns exactly the successful analyses (in
input order, one per non-failing input); a failing paper is simply absent
and does not affect its siblings' results; in particular one failing paper
among five yields exactly the four sibling analyses. -/
theorem c4_batch_failure_isolation :
    (∀ (f : ArxivPaper → AnalysisOutcome) (papers : List ArxivPaper),
      analyze_paper_batch f papers =
        papers.filterMap (fun p => (f p).toSuccess))
    ∧ (∀ (f : ArxivPaper → AnalysisOutcome) (xs : List ArxivPaper)
        (p : ArxivPaper) (ys : List ArxivPaper),
        (f p).toSuccess = none →
        analyze_paper_batch f (xs ++ p :: ys) =
          analyze_paper_batch f xs ++ analyze_paper_batch f ys)
    ∧ (∀ (f : ArxivPaper → AnalysisOutcome) (p₁ p₂ p₃ p₄ p₅ : ArxivPaper)
        (a₁ a₂ a₄ a₅ : PaperAnalysis),
        f p₁ = .success a₁ → f p₂ = .success a₂ →
        (f p₃ = .absent ∨ ∃ msg, f p₃ = .failure msg) →
        f p₄ = .success a₄ → f p₅ = .success a₅ →
        analyze_paper_batch f [p₁, p₂, p₃, p₄, p₅] = [a₁, a₂, a₄, a₅]) := by
  refine ⟨fun f papers => ?_, fun f xs p ys hp => ?_, ?_⟩
  · simp [analyze_paper_batch, List.filterMap_map, Function.comp_def]
  · simp [analyze_paper_batch, List.filterMap_append, hp]
  · intro f p₁ p₂ p₃ p₄ p₅ a₁ a₂ a₄ a₅ h1 h2 h3 h4 h5
    rcases h3 with h3 | ⟨msg, h3⟩ <;>
      simp [analyze_paper_batch, List.filterMap_cons, h1, h2, h3, h4, h5,
        AnalysisOutcome.toSuccess]

/-- Claim C4 witness: with an oracle that fails on `surveyPaper` and
succeeds with `sampleAnalysis` elsewhere, a batch of five papers of which
the middle one fails yields exactly the four sibling analyses. -/
theorem c4_batch_failure_isolation_witness :
    analyze_paper_batch
      (fun p => if p.id = "2501.00002" then .failure "boom"
                else .success sampleAnalysis)
      [samplePaper, samplePaper, surveyPaper, samplePaper, samplePaper] =
      [sampleAnalysis, sampleAnalysis, sampleAnalysis, sampleAnalysis] :=
  c4_batch_failure_isolation.2.2 _ samplePaper samplePaper surveyPaper
    samplePaper samplePaper sampleAnalysis sampleAnalysis sampleAnalysis
    sampleAnalysis rfl rfl (Or.inr ⟨"boom", rfl⟩) rfl rfl

/-- Claim C2 counterexample: the claim "scores are clamped to [0,1] at
creation, for every possible JSON payload" is false — a payload supplying
`relevance_score = 2` produces an analysis whose relevance score is 2,
outside [0,1]; no clamping is applied. -/
theorem c2_no_clamping_counterexample :
    (mkPaperAnalysis "2501.00001"
        { relevance_score := some 2 }).relevance_score = 2
    ∧ ¬ ((mkPaperAnalysis "2501.00001"
        { relevance_score := some 2 }).relevance_score ≤ 1) := by
  exact ⟨rfl, by norm_num [mkPaperAnalysis]⟩

/-- Claim C2 (amended): the analyzer takes the three scores verbatim from
the JSON payload, defaulting each missing score to 0.5; they lie in [0,1]
whenever every score the payload does supply lies in [0,1] (in particular
the defaults do), but out-of-range payload values pass through unclamped. -/
theorem c2_scores_within_bounds_when_payload_bounded (pid : String)
    (d : AnalysisData)
    (hr : ∀ x, d.relevance_score = some x → 0 ≤ x ∧ x ≤ 1)
    (hs : ∀ x, d.significance_score = some x → 0 ≤ x ∧ x ≤ 1)
    (hn : ∀ x, d.novelty_score = some x → 0 ≤ x ∧ x ≤ 1) :
    (0 ≤ (mkPaperAnalysis pid d).relevance_score ∧
      (mkPaperAnalysis pid d).relevance_score ≤ 1)
    ∧ (0 ≤ (mkPaperAnalysis pid d).significance_score ∧
      (mkPaperAnalysis pid d).significance_score ≤ 1)
    ∧ (0 ≤ (mkPaperAnalysis pid d).novelty_score ∧
      (mkPaperAnalysis pid d).novelty_score ≤ 1)
    ∧ (mkPaperAnalysis pid d).relevance_score = d.relevance_score.getD 0.5
    ∧ (mkPaperAnalysis pid d).significance_score =
        d.significance_score.getD 0.5
    ∧ (mkPaperAnalysis pid d).novelty_score = d.novelty_score.getD 0.5 := by
  refine ⟨?_, ?_, ?_, rfl, rfl, rfl⟩
  · cases h : d.relevance_score with
    | none => simp [mkPaperAnalysis, h]; norm_num
    | some x => simpa [mkPaperAnalysis, h] using hr x h
  · cases h : d.significance_score with
    | none => simp [mkPaperAnalysis, h]; norm_num
    | some x => simpa [mkPaperAnalysis, h] using hs x h
  · cases h : d.novelty_score with
    | none => simp [mkPaperAnalysis, h]; norm_num
    | some x => simpa [mkPaperAnalysis, h] using hn x h

/-- Claim C2 witness: a payload supplying only a significance score of 0.8
(in range) yields an analysis whose three scores all lie in [0,1]. -/
theorem c2_scores_within_bounds_witness :
    (0 ≤ sampleAnalysis.relevance_score ∧
      sampleAnalysis.relevance_score ≤ 1)
    ∧ (0 ≤ sampleAnalysis.significance_score ∧
      sampleAnalysis.significance_score ≤ 1)
    ∧ (0 ≤ sampleAnalysis.novelty_score ∧
      sampleAnalysis.novelty_score ≤ 1) := by
  have h := c2_scores_within_bounds_when_payload_bounded "2501.00001"
    { significance_score := some 0.8 }
    (by intro x hx; cases hx)
    (by intro x hx; cases Option.some.inj hx; norm_num)
    (by intro x hx; cases hx)
  exact ⟨h.1, h.2.1, h.2.2.1⟩

/-- Claim C3: immediately after `cache_analysis` (put), `is_paper_analyzed`
is true for the paper; and for a modified version of the paper (same id,
changed content hash) without a corresponding put, `is_paper_analyzed`
returns false and purges the old entry (metadata, hash, and both blobs). -/
theorem c3_put_then_hash_invalidation (c : CacheState) (now ttl : Int)
    (p pChanged : ArxivPaper) (a : PaperAnalysis)
    (httl : 0 < ttl)
    (hid : pChanged.id = p.id)
    (hhash : calculate_paper_hash pChanged ≠ calculate_paper_hash p) :
    (is_paper_analyzed (cache_analysis c now p a) now ttl p).1 = true
    ∧ (is_paper_analyzed (cache_analysis c now p a) now ttl pChanged).1 =
        false
    ∧ ((is_paper_analyzed (cache_analysis c now p a) now ttl
          pChanged).2.analyzed_papers p.id = none
        ∧ (is_paper_analyzed (cache_analysis c now p a) now ttl
          pChanged).2.paper_hashes p.id = none
        ∧ (is_paper_analyzed (cache_analysis c now p a) now ttl
          pChanged).2.analysis_files p.id = none) := by
  refine ⟨?_, ?_⟩
  · simp only [is_paper_analyzed, cache_analysis, updMap, if_pos rfl]
    have hcut : ¬ (now ≤ now - ttl * 3600) := by omega
    simp [hcut]
  · have hmeta :
        (cache_analysis c now p a).analyzed_papers pChanged.id =
          some { analyzed_at := now
                 title := String.mk (p.title.data.take 100)
                 significance_score := a.significance_score
                 categories := p.categories.take 3 } := by
      simp [cache_analysis, updMap, hid]
    have hstored :
        (cache_analysis c now p a).paper_hashes pChanged.id =
          some (calculate_paper_hash p) := by
      simp [cache_analysis, updMap, hid]
    have hne : (cache_analysis c now p a).paper_hashes pChanged.id ≠
        some (calculate_paper_hash pChanged) := by
      rw [hstored]
      intro hcontra
      exact hhash (Option.some.inj hcontra).symm
    simp only [is_paper_analyzed, hmeta, if_pos hne]
    simp [remove_from_cache, updMap, hid]

/-- Claim C3 witness: with an empty cache, putting the sample paper makes
it analyzed; the same paper with a changed title is reported not analyzed
and the entry is purged. -/
theorem c3_put_then_hash_invalidation_witness :
    (is_paper_analyzed
      (cache_analysis CacheState.empty 1000000 samplePaper sampleAnalysis)
      1000000 168 samplePaper).1 = true
    ∧ (is_paper_analyzed
      (cache_analysis CacheState.empty 1000000 samplePaper sampleAnalysis)
      1000000 168 samplePaperChanged).1 = false
    ∧ ((is_paper_analyzed
        (cache_analysis CacheState.empty 1000000 samplePaper sampleAnalysis)
        1000000 168 samplePaperChanged).2.analyzed_papers samplePaper.id =
          none
      ∧ (is_paper_analyzed
        (cache_analysis CacheState.empty 1000000 samplePaper sampleAnalysis)
        1000000 168 samplePaperChanged).2.paper_hashes samplePaper.id = none
      ∧ (is_paper_analyzed
        (cache_analysis CacheState.empty 1000000 samplePaper sampleAnalysis)
        1000000 168 samplePaperChanged).2.analysis_files samplePaper.id =
          none) :=
  c3_put_then_hash_invalidation CacheState.empty 1000000 168 samplePaper
    samplePaperChanged sampleAnalysis (by decide) rfl (by decide)

/-- Claim C6: a cache entry whose `analyzed_at` is older than the TTL is
reported not analyzed by `is_paper_analyzed`, which purges the entry on
that access; a subsequent `get_cached_analysis` for the id returns absent. -/
theorem c6_ttl_lazy_expiry (c : CacheState) (now ttl : Int)
    (p : ArxivPaper) (meta : CacheMeta)
    (hmeta : c.analyzed_papers p.id = some meta)
    (hhash : c.paper_hashes p.id = some (calculate_paper_hash p))
    (hexp : meta.analyzed_at ≤ now - ttl * 3600) :
    (is_paper_analyzed c now ttl p).1 = false
    ∧ (is_paper_analyzed c now ttl p).2.analyzed_papers p.id = none
    ∧ (get_cached_analysis (is_paper_analyzed c now ttl p).2 p.id).1 =
        none := by
  have hne : ¬ (c.paper_hashes p.id ≠ some (calculate_paper_hash p)) := by
    rw [hhash]; exact fun h => h rfl
  have hstate : is_paper_analyzed c now ttl p =
      (false, remove_from_cache c p.id) := by
    simp [is_paper_analyzed, hmeta, hne, hexp]
  refine ⟨by rw [hstate], ?_, ?_⟩ <;>
    rw [hstate] <;>
    simp [remove_from_cache, get_cached_analysis, updMap]

/-- Claim C6 witness: with TTL = 1 hour and an entry analyzed at
now − 2 hours, the sample paper is reported expired, the entry is removed,
and the subsequent get returns absent. -/
theorem c6_ttl_lazy_expiry_witness :
    (is_paper_analyzed
      (cache_analysis CacheState.empty 992800 samplePaper sampleAnalysis)
      1000000 1 samplePaper).1 = false
    ∧ (is_paper_analyzed
      (cache_analysis CacheState.empty 992800 samplePaper sampleAnalysis)
      1000000 1 samplePaper).2.analyzed_papers samplePaper.id = none
    ∧ (get_cached_analysis
      (is_paper_analyzed
        (cache_analysis CacheState.empty 992800 samplePaper sampleAnalysis)
        1000000 1 samplePaper).2 samplePaper.id).1 = none :=
  c6_ttl_lazy_expiry
    (cache_analysis CacheState.empty 992800 samplePaper sampleAnalysis)
    1000000 1 samplePaper
    { analyzed_at := 992800
      title := String.mk (samplePaper.title.data.take 100)
      significance_score := sampleAnalysis.significance_score
      categories := samplePaper.categories.take 3 }
    rfl rfl (by decide)

/-- Claim C8: a cycle in which no analysis passes the significance
threshold returns status "no_content" and never calls the publish layer —
a no-op success, not an error. -/
theorem c8_no_content_cycle (now : Int) (cfg : ResearchConfig)
    (f : ArxivPaper → AnalysisOutcome) (fetched : List ArxivPaper)
    (h : (fetch_and_analyze_papers now cfg f fetched).significant = []) :
    run_daily_digest (.ok
      ((fetch_and_analyze_papers now cfg f fetched).filtered,
       (fetch_and_analyze_papers now cfg f fetched).significant)) =
      { status := "no_content", publishCalled := false } := by
  simp [run_daily_digest, h]

/-- Claim C8 witness: a cycle over an empty fetch result has no
significance-passing analyses and terminates with "no_content" and no
publish call. -/
theorem c8_no_content_cycle_witness :
    (fetch_and_analyze_papers 1000000 sampleConfig sampleOracle
      []).significant = []
    ∧ run_daily_digest (.ok
        ((fetch_and_analyze_papers 1000000 sampleConfig sampleOracle
          []).filtered,
         (fetch_and_analyze_papers 1000000 sampleConfig sampleOracle
          []).significant)) =
        { status := "no_content", publishCalled := false } :=
  ⟨rfl, c8_no_content_cycle 1000000 sampleConfig sampleOracle [] rfl⟩

/-- Helper: the sample paper's heuristic relevance score at time 1000000
is 0.9 (two keywords, ≤ 1 day old, popular category). -/
lemma samplePaper_relevance :
    calculate_relevance_score 1000000 samplePaper = 0.9 := by
  have hd : daysOld 1000000 samplePaper ≤ 1 := by decide
  unfold calculate_relevance_score
  rw [show matchedKeywords samplePaper = ["novel", "state-of-the-art"]
    from by decide]
  rw [if_pos (show samplePaper.primary_category ∈
    (["cs.AI", "cs.LG"] : List String) from by decide)]
  simp only [if_pos hd, List.length_cons, List.length_nil]
  norm_num

/-- Helper: the sample paper survives the cycle's pre-filter under the
sample configuration (score 0.9 ≥ 0.3, no exclusion keyword matched). -/
lemma samplePaper_passes_filter :
    filter_papers 1000000 [samplePaper] (some sampleConfig.exclude_keywords)
      sampleConfig.min_relevance_score = [samplePaper] := by
  have hex : excludedBy default_exclude_keywords samplePaper = false := by
    decide
  simp only [filter_papers, sampleConfig, effectiveExcludeKeywords,
    List.filter_cons, List.filter_nil, samplePaper_relevance, hex,
    Bool.not_false, Bool.true_and, decide_eq_true_eq]
  norm_num

/-- Helper: the full trace of one `fetch_and_analyze_papers` call on the
sample inputs: the sample paper is filtered in, submitted for analysis, and
its analysis passes the significance threshold. -/
lemma sample_cycle_trace :
    fetch_and_analyze_papers 1000000 sampleConfig sampleOracle
      [samplePaper] =
      { filtered := [samplePaper], submitted := [samplePaper],
        analyses := [sampleAnalysis], significant := [sampleAnalysis] } := by
  unfold fetch_and_analyze_papers
  rw [samplePaper_passes_filter]
  simp only [List.isEmpty_cons, Bool.false_eq_true, if_false, List.take,
    analyze_paper_batch, List.map_cons, List.map_nil, sampleOracle,
    List.filterMap_cons, List.filterMap_nil, AnalysisOutcome.toSuccess,
    List.filter_cons, List.filter_nil, decide_eq_true_eq]
  rw [if_pos (show sampleConfig.min_significance_score ≤
    sampleAnalysis.significance_score by
      simp [sampleConfig, sampleAnalysis, mkPaperAnalysis]; norm_num)]

/-- Claim C1: the claim is contradicted by the code — the orchestrator's
cycle never consults the Analysis Cache. On a concrete cycle whose fetched
list is exactly one paper that is already cached and fresh
(`is_paper_analyzed` true), the cycle still submits that paper to batch
analysis, and the set handed to the publish layer is only the new
significance-filtered analyses (no cached analyses are merged, and nothing
is persisted to the cache). -/
theorem c1_cycle_bypasses_cache :
    (is_paper_analyzed
      (cache_analysis CacheState.empty 1000000 samplePaper sampleAnalysis)
      1000000 168 samplePaper).1 = true
    ∧ (fetch_and_analyze_papers 1000000 sampleConfig sampleOracle
        [samplePaper]).submitted = [samplePaper]
    ∧ (fetch_and_analyze_papers 1000000 sampleConfig sampleOracle
        [samplePaper]).significant = [sampleAnalysis] := by
  refine ⟨by decide, ?_, ?_⟩ <;> rw [sample_cycle_trace]

/-- Claim C5 counterexample: a cycle-level exception does not trigger the
retry policy — `run_daily_digest` catches it and converts it into a
status-"error" result (no re-raise), so the resilient wrapper observes a
normal completion and performs zero back-off sleeps. -/
theorem c5_cycle_exception_not_retried :
    run_daily_digest (.error "fetch failed") =
      { status := "error", publishCalled := false }
    ∧ run_agent_with_recovery (fun _ => true) = ([], true) :=
  ⟨rfl, rfl⟩

/-- Claim C5 (amended): exceptions escaping the agent's main entry point
(not cycle-level exceptions, which are converted to status-"error"
results) trigger the resilient wrapper's exponential backoff: with
max_retries = 5 and base delay 30 s, three consecutive failing attempts
produce waits of 30 s, 60 s, 120 s (doubling, capped at 300 s) before the
fourth attempt, and five consecutive failures exhaust the retries and
re-raise (fatal) after waits 30, 60, 120, 240 rather than retrying
forever. -/
theorem c5_recovery_backoff (attempts : Nat → Bool)
    (h0 : attempts 0 = false) (h1 : attempts 1 = false)
    (h2 : attempts 2 = false) :
    (attempts 3 = true →
      run_agent_with_recovery attempts = ([30, 60, 120], true))
    ∧ (attempts 3 = false → attempts 4 = false →
      run_agent_with_recovery attempts = ([30, 60, 120, 240], false)) := by
  constructor
  · intro h3
    simp [run_agent_with_recovery, recovery_loop, h0, h1, h2, h3]
  · intro h3 h4
    simp [run_agent_with_recovery, recovery_loop, h0, h1, h2, h3, h4]

/-- Claim C5 witness: an attempt sequence failing three times then
succeeding sleeps 30, 60, 120 before completing; an always-failing
sequence sleeps 30, 60, 120, 240 and then raises fatally. -/
theorem c5_recovery_backoff_witness :
    run_agent_with_recovery (fun k => decide (3 ≤ k)) = ([30, 60, 120], true)
    ∧ run_agent_with_recovery (fun _ => false) =
        ([30, 60, 120, 240], false) :=
  ⟨(c5_recovery_backoff (fun k => decide (3 ≤ k)) rfl rfl rfl).1 rfl,
   (c5_recovery_backoff (fun _ => false) rfl rfl rfl).2 rfl rfl⟩

end ArxivAgent
